import Mathlib

/-!
Verification of the zero-copy array interchange layer of the repository
(`tutorial/ndarray.cpp` and `tutorial/eigen.cpp`) against its specification.

The C++ functions are shallowly embedded: an `nb::ndarray` argument becomes a
`Descriptor` (buffer contents, dtype tag, device tag, shape, element strides,
owner reference), in-place mutation becomes a function returning the updated
descriptor, and `float` values are modelled exactly as rationals (every value
the programs compute — small integer patterns and halves — is exactly
representable in IEEE single precision, so rational arithmetic is faithful).
-/

namespace ZeroCopy

/-- Element type tags, as compared by `nb::dtype` equality in the source. -/
inductive Dtype where
  | int16 | int32 | uint8 | uint32 | float32 | float64
deriving DecidableEq, Repr

/-- Device placement tags (`nb::device::cpu`, `nb::device::cuda`). -/
inductive Device where
  | cpu | cuda
deriving DecidableEq, Repr

/-- Contiguity orders: row-major (C order) or column-major (Fortran order). -/
inductive Order where
  | rowMajor | colMajor
deriving DecidableEq, Repr

/-- Array descriptor: the runtime metadata of a foreign array together with the
underlying buffer contents, read at the descriptor's data pointer in memory
order.  `strides` are in elements, signed, as in the spec's data model. -/
structure Descriptor where
  data : List ℚ
  dtype : Dtype
  device : Device
  shape : List Nat
  strides : List Int
  owner : Option Nat
deriving DecidableEq, Repr

/-- `a.ndim()` of the source: the number of axes. -/
def Descriptor.ndim (d : Descriptor) : Nat := d.shape.length

/-- `a.shape(i)` of the source. -/
def Descriptor.shapeAt (d : Descriptor) (i : Nat) : Nat := d.shape.getD i 0

/-- `a.stride(i)` of the source. -/
def Descriptor.strideAt (d : Descriptor) (i : Nat) : Int := d.strides.getD i 0

/-- Number of elements of the described array: the product of the extents. -/
def Descriptor.numel (d : Descriptor) : Nat := d.shape.prod

/-- Column-major contiguity scan: the expected stride of an axis is the product
of the extents of the axes before it; an axis of extent at most 1 places no
constraint on its stride. -/
def fContigAux (acc : Nat) : List Nat → List Int → Bool
  | [], [] => true
  | n :: srest, s :: strest =>
      (decide (n ≤ 1) || decide (s = (acc : Int))) && fContigAux (acc * n) srest strest
  | _, _ => false

/-- Row-major contiguity scan: the expected stride of an axis is the product of
the extents of the axes after it; an axis of extent at most 1 places no
constraint on its stride. -/
def cContigAux : List Nat → List Int → Bool
  | [], [] => true
  | n :: srest, s :: strest =>
      (decide (n ≤ 1) || decide (s = (srest.prod : Int))) && cContigAux srest strest
  | _, _ => false

/-- Modelled from the spec: `is_contiguous(Descriptor, order)` of §4.1.  The
contiguity test itself is performed by the binding layer (nanobind's
`nb::c_contig` / Eigen `Ref` casters), not by code under `src/`; it computes,
from `shape` and `strides`, whether the layout matches the packing order, and a
zero-extent array is contiguous under both orders. -/
def is_contiguous (d : Descriptor) (o : Order) : Bool :=
  decide (0 ∈ d.shape) ||
    match o with
    | Order.rowMajor => cContigAux d.shape d.strides
    | Order.colMajor => fContigAux 1 d.shape d.strides

/-! ## Two-dimensional fill loops

The C++ fill functions traverse a C-contiguous 2D array with nested `for`
loops, writing `view(i, j)`; on a C-contiguous buffer that write lands at flat
offset `i*c + j`.  `fillRow f c i buf j` performs the writes of row `i` for
column indices below `j`; `fillRows f c buf i` performs the writes of all rows
below `i`. -/

def fillRow (f : Nat → Nat → ℚ) (c i : Nat) (buf : List ℚ) : Nat → List ℚ
  | 0 => buf
  | j + 1 => (fillRow f c i buf j).set (i * c + j) (f i j)

def fillRows (f : Nat → Nat → ℚ) (c : Nat) (buf : List ℚ) : Nat → List ℚ
  | 0 => buf
  | i + 1 => fillRow f c i (fillRows f c buf i) c

/-- The full nested loop `for i < r, for j < c, view(i, j) = f i j` on a
C-contiguous buffer. -/
def fill2d (buf : List ℚ) (r c : Nat) (f : Nat → Nat → ℚ) : List ℚ :=
  fillRows f c buf r

/-- The product-of-indices pattern `i * j` written by the plain fill
functions. -/
def prodPattern : Nat → Nat → ℚ := fun i j => ((i * j : Nat) : ℚ)

/-- The sequence of index pairs the nested fill loops access, in order. -/
def fillWrites (r c : Nat) : List (Nat × Nat) :=
  ((List.range r).map (fun i => (List.range c).map (fun j => (i, j)))).flatten

/-- The `arr.view()` of the source: a register-sized accessor holding the
extents copied by value. -/
structure View2D where
  shape0 : Nat
  shape1 : Nat
deriving DecidableEq, Repr

/-- `arr.view()` for a 2D array. -/
def Descriptor.view (d : Descriptor) : View2D :=
  { shape0 := d.shapeAt 0, shape1 := d.shapeAt 1 }

/-- `fill_array_optimized` of `tutorial/ndarray.cpp`: derives a view and fills
the 2D array with the product of indices through the view. -/
def fill_array_optimized (arr : Descriptor) : Descriptor :=
  let view := arr.view
  { arr with
    data := fill2d arr.data view.shape0 view.shape1 prodPattern }

/-- `fill_array_regular` of `tutorial/ndarray.cpp`: same fill, reading the
extents from the array directly at each loop bound. -/
def fill_array_regular (arr : Descriptor) : Descriptor :=
  { arr with
    data := fill2d arr.data (arr.shapeAt 0) (arr.shapeAt 1) prodPattern }

/-- `fill_array_specialized` of `tutorial/ndarray.cpp`: runtime dispatch on
`(dtype, ndim)`; the 2D float branch fills `i*j + 0.5`, the 2D int32 branch
fills `i + j`, anything else is reported unsupported. -/
def fill_array_specialized (arr : Descriptor) : Descriptor × String :=
  if arr.dtype = Dtype.float32 ∧ arr.ndim = 2 then
    ({ arr with
       data := fill2d arr.data (arr.shapeAt 0) (arr.shapeAt 1)
         (fun i j => ((i * j : Nat) : ℚ) + 1/2) },
     "Used specialized 2D float view")
  else if arr.dtype = Dtype.int32 ∧ arr.ndim = 2 then
    ({ arr with
       data := fill2d arr.data (arr.shapeAt 0) (arr.shapeAt 1)
         (fun i j => ((i + j : Nat) : ℚ)) },
     "Used specialized 2D int32 view")
  else
    (arr, "Unsupported array type or dimension")

/-! ## Layout constraints and validation

The rejection of mismatched layouts at the boundary (`Eigen::Ref<const
ColMatrixXf>` in `tutorial/eigen.cpp`) is performed by the binding layer's type
casters, not by code under `src/`, so the check is modelled from the spec's
Layout Constraint System (§4.3). -/

/-- Layout errors of the spec's taxonomy (§7). -/
inductive LayoutError where
  | DtypeMismatch | DeviceMismatch | RankMismatch
  | ShapeMismatch (axis : Nat) (expected actual : Nat)
  | LayoutMismatch
deriving DecidableEq, Repr

/-- A declared layout constraint: required dtype, device, rank, per-axis fixed
extents, and contiguity order; `none` means unconstrained. -/
structure Constraint where
  dtype : Option Dtype
  device : Option Device
  ndim : Option Nat
  extents : List (Option Nat)
  order : Option Order
deriving DecidableEq, Repr

/-- Does the descriptor satisfy the constraint's dtype requirement? -/
def dtypeOK (d : Descriptor) (c : Constraint) : Bool :=
  match c.dtype with
  | none => true
  | some t => d.dtype = t

/-- Does the descriptor satisfy the constraint's device requirement? -/
def deviceOK (d : Descriptor) (c : Constraint) : Bool :=
  match c.device with
  | none => true
  | some dev => d.device = dev

/-- Does the descriptor satisfy the constraint's rank requirement? -/
def ndimOK (d : Descriptor) (c : Constraint) : Bool :=
  match c.ndim with
  | none => true
  | some n => d.ndim = n

/-- First per-axis fixed-extent mismatch, reporting the offending axis with the
expected and actual extents. -/
def extentsCheckAux (axis : Nat) : List (Option Nat) → List Nat → Option LayoutError
  | [], _ => none
  | _, [] => none
  | some e :: es, n :: ns =>
      if n ≠ e then some (LayoutError.ShapeMismatch axis e n)
      else extentsCheckAux (axis + 1) es ns
  | none :: es, _ :: ns => extentsCheckAux (axis + 1) es ns

/-- Does the descriptor satisfy the constraint's contiguity requirement? -/
def orderOK (d : Descriptor) (c : Constraint) : Bool :=
  match c.order with
  | none => true
  | some o => is_contiguous d o

/-- Modelled from the spec: `validate(Descriptor, Constraint)` of §4.3, checks
in order dtype, device, rank, per-axis extents, contiguity; the first failing
check determines the error, and a validated descriptor is returned unchanged
(zero-copy). -/
def validate (d : Descriptor) (c : Constraint) : Except LayoutError Descriptor :=
  if ¬ dtypeOK d c then Except.error LayoutError.DtypeMismatch
  else if ¬ deviceOK d c then Except.error LayoutError.DeviceMismatch
  else if ¬ ndimOK d c then Except.error LayoutError.RankMismatch
  else
    match extentsCheckAux 0 c.extents d.shape with
    | some e => Except.error e
    | none =>
        if ¬ orderOK d c then Except.error LayoutError.LayoutMismatch
        else Except.ok d

/-- The constraint declared by `Eigen::Ref<const ColMatrixXf>`: a 2D float32
cpu array in column-major order, any extents. -/
def colmajorOnlyConstraint : Constraint :=
  { dtype := some Dtype.float32
    device := some Device.cpu
    ndim := some 2
    extents := [none, none]
    order := some Order.colMajor }

/-- Modelled from the spec: the boundary behaviour of `matrix_colmajor_only` of
`tutorial/eigen.cpp` — its `Eigen::Ref<const ColMatrixXf>` parameter validates
the incoming descriptor against the column-major constraint and, on success,
aliases the same storage without copying (the function body only prints). -/
def matrix_colmajor_only (d : Descriptor) : Except LayoutError Descriptor :=
  validate d colmajorOnlyConstraint

/-! ## Ownership tokens

`create_2d_array` and `return_multiple_arrays` hand buffers to the foreign
side through an `nb::capsule` whose deleter frees the allocation; the reference
counting that decides when the deleter fires lives in the host runtime, so the
token protocol is modelled from the spec (§4.2). -/

/-- Lifetime errors of the spec's taxonomy (§7). -/
inductive LifetimeError where
  | DoubleRelease | UseAfterRelease
deriving DecidableEq, Repr

/-- State of an ownership token: its reference count and the number of times
its release callback has fired. -/
structure TokenState where
  refcount : Nat
  releaseCount : Nat
deriving DecidableEq, Repr

/-- Modelled from the spec: `make_owner(context, release)` of §4.2 — a fresh
token with refcount 1 whose release has not fired. -/
def make_owner : TokenState :=
  { refcount := 1, releaseCount := 0 }

/-- Modelled from the spec: `acquire(Token)` of §4.2 — increments the refcount;
on an invalid (already released) token it is a reported error. -/
def acquire (t : TokenState) : Except LifetimeError TokenState :=
  if t.refcount = 0 then Except.error LifetimeError.UseAfterRelease
  else Except.ok { t with refcount := t.refcount + 1 }

/-- Modelled from the spec: `drop(Token)` of §4.2 — decrements the refcount and,
when it reaches zero, fires `release(context)` synchronously; a drop on an
invalid token is reported as a double release, never a second firing. -/
def drop (t : TokenState) : Except LifetimeError TokenState :=
  if t.refcount = 0 then Except.error LifetimeError.DoubleRelease
  else if t.refcount = 1 then
    Except.ok { refcount := 0, releaseCount := t.releaseCount + 1 }
  else Except.ok { t with refcount := t.refcount - 1 }

/-- A token operation issued by the host runtime. -/
inductive TokenOp where
  | acq | drp
deriving DecidableEq, Repr

/-- One host-runtime step: errors are reported and leave the token unchanged. -/
def stepToken (t : TokenState) : TokenOp → TokenState × Option LifetimeError
  | TokenOp.acq =>
      match acquire t with
      | Except.ok u => (u, none)
      | Except.error e => (t, some e)
  | TokenOp.drp =>
      match drop t with
      | Except.ok u => (u, none)
      | Except.error e => (t, some e)

/-- Run a sequence of token operations, collecting the reported errors. -/
def runOps (t : TokenState) : List TokenOp → TokenState × List LifetimeError
  | [] => (t, [])
  | op :: rest =>
      let su := stepToken t op
      let rf := runOps su.1 rest
      (rf.1, su.2.toList ++ rf.2)

/-- Drop one reference of an exported allocation: when the token's refcount
reaches zero its release callback frees the backing allocation (the backing
becomes unreachable). -/
def dropExport (backing : Option α) (t : TokenState) :
    Except LifetimeError (Option α × TokenState) :=
  match drop t with
  | Except.error e => Except.error e
  | Except.ok u => Except.ok (if u.refcount = 0 then none else backing, u)

/-! ## Buffer creation and hand-off (`create_2d_array`) -/

/-- `create_2d_array(rows, cols)` of `tutorial/ndarray.cpp`: allocates a buffer
of `rows*cols` floats initialised to `0, 1, 2, ...`, wraps it in a fresh
capsule token whose deleter frees exactly that allocation, and exports a
row-major `(rows, cols)` descriptor over it. -/
def create_2d_array (rows cols : Nat) : Option (List ℚ) × Descriptor × TokenState :=
  let data : List ℚ := (List.range (rows * cols)).map (fun (i : Nat) => (i : ℚ))
  (some data,
   { data := data
     dtype := Dtype.float32
     device := Device.cpu
     shape := [rows, cols]
     strides := [(cols : Int), 1]
     owner := some 0 },
   make_owner)

/-! ## Shared ownership (`return_multiple_arrays`) -/

/-- The `SharedArrays` backing structure of `tutorial/ndarray.cpp`. -/
structure SharedArrays where
  vec_1 : List ℚ
  vec_2 : List ℚ
deriving DecidableEq, Repr

/-- The backing allocation built by `return_multiple_arrays`: `vec_1` holds
`0,1,2,3,4` and `vec_2` holds `9,8,...,0`. -/
def make_shared_arrays : SharedArrays :=
  { vec_1 := (List.range 5).map (fun (i : Nat) => (i : ℚ))
    vec_2 := (List.range 10).map (fun (i : Nat) => ((9 - i : Nat) : ℚ)) }

/-- `return_multiple_arrays` of `tutorial/ndarray.cpp` as seen by the foreign
caller: one backing `SharedArrays` allocation, and one capsule token whose
refcount counts the two exported descriptors that share it (§4.7). -/
def return_multiple_arrays : Option SharedArrays × TokenState :=
  (some make_shared_arrays, { refcount := 2, releaseCount := 0 })

/-- Reading element `i` of the second exported array through the backing
allocation; unreachable once the backing has been freed. -/
def readSecond (backing : Option SharedArrays) (i : Nat) : Option ℚ :=
  match backing with
  | none => none
  | some s => s.vec_2[i]?

/-! ## `map_vector` of `tutorial/eigen.cpp` -/

/-- Apply `f` to the first `n` entries of the buffer: the effect of
`Eigen::Map<VectorXf> vec(array.data(), n); vec *= 2` — the map addresses `n`
consecutive elements from the data pointer, at unit stride. -/
def mapFirstN (f : ℚ → ℚ) : Nat → List ℚ → List ℚ
  | _, [] => []
  | 0, buf => buf
  | n + 1, x :: rest => f x :: mapFirstN f n rest

/-- `map_vector` of `tutorial/eigen.cpp`: throws unless the array is 1D, then
maps `shape(0)` consecutive floats from the data pointer into an Eigen vector
and doubles them in place.  The error is reported with the array untouched. -/
def map_vector (array : Descriptor) : Descriptor × Option String :=
  if array.ndim ≠ 1 then (array, some "Expected a 1D array")
  else
    ({ array with
       data := mapFirstN (fun x => x * 2) (array.shapeAt 0) array.data },
     none)

/-- Element `i` of a 1D array with a nonnegative stride: the buffer entry at
flat offset `i * stride(0)`. -/
def elem1d (d : Descriptor) (i : Nat) : Option ℚ :=
  d.data[(i * (d.strideAt 0).toNat)]?

/-! ## Concrete descriptors used as inputs -/

/-- A zeroed C-contiguous 2x2 float32 cpu array. -/
def dFloat22 : Descriptor :=
  { data := [0, 0, 0, 0], dtype := Dtype.float32, device := Device.cpu
    shape := [2, 2], strides := [2, 1], owner := none }

/-- A zeroed C-contiguous 2x2 int32 cpu array. -/
def dInt22 : Descriptor :=
  { data := [0, 0, 0, 0], dtype := Dtype.int32, device := Device.cpu
    shape := [2, 2], strides := [2, 1], owner := none }

/-- A C-contiguous 1x1x1 float64 cpu array: a 3D descriptor of an unsupported
dtype for the specializer. -/
def dFloat64_3d : Descriptor :=
  { data := [0], dtype := Dtype.float64, device := Device.cpu
    shape := [1, 1, 1], strides := [1, 1, 1], owner := none }

/-- A C-contiguous 2x3 float32 cpu array with nonzero contents: agrees with
`dFloat22` on dtype and ndim but differs in extents and element values. -/
def dFloat23 : Descriptor :=
  { data := [1, 2, 3, 4, 5, 6], dtype := Dtype.float32, device := Device.cpu
    shape := [2, 3], strides := [3, 1], owner := none }

/-- A row-major 3x4 float32 cpu array. -/
def dRow34 : Descriptor :=
  { data := List.replicate 12 0, dtype := Dtype.float32, device := Device.cpu
    shape := [3, 4], strides := [4, 1], owner := none }

/-- A zero-extent C-contiguous float32 cpu array of shape (0, 5). -/
def dZero05 : Descriptor :=
  { data := [], dtype := Dtype.float32, device := Device.cpu
    shape := [0, 5], strides := [5, 1], owner := none }

/-- A strided (non-contiguous) 1D float32 view: shape (2), stride 2, over the
three-element buffer `[1, 2, 3]` — its elements are `1` and `3`. -/
def dStrided : Descriptor :=
  { data := [1, 2, 3], dtype := Dtype.float32, device := Device.cpu
    shape := [2], strides := [2], owner := none }

/-- A contiguous 1D float32 array with elements `[1, 5]`. -/
def dUnit : Descriptor :=
  { data := [1, 5], dtype := Dtype.float32, device := Device.cpu
    shape := [2], strides := [1], owner := none }

/-! ## Lemmas about the fill loops -/

theorem length_fillRow (f : Nat → Nat → ℚ) (c i : Nat) (buf : List ℚ) :
    ∀ j, (fillRow f c i buf j).length = buf.length
  | 0 => rfl
  | j + 1 => by
      simp only [fillRow, List.length_set]
      exact length_fillRow f c i buf j

theorem length_fillRows (f : Nat → Nat → ℚ) (c : Nat) (buf : List ℚ) :
    ∀ r, (fillRows f c buf r).length = buf.length
  | 0 => rfl
  | r + 1 => by
      simp only [fillRows, length_fillRow]
      exact length_fillRows f c buf r

theorem fillRow_get_written (f : Nat → Nat → ℚ) (c i : Nat) (buf : List ℚ) :
    ∀ j j0, j0 < j → i * c + j0 < buf.length →
      (fillRow f c i buf j)[(i * c + j0)]? = some (f i j0)
  | 0, _, h, _ => absurd h (Nat.not_lt_zero _)
  | j + 1, j0, h, hlen => by
      rcases Nat.lt_succ_iff_lt_or_eq.mp h with h' | h'
      · have hne : i * c + j ≠ i * c + j0 := fun hE =>
          absurd (Nat.add_left_cancel hE).symm (Nat.ne_of_lt h')
        simp only [fillRow, List.getElem?_set_ne hne]
        exact fillRow_get_written f c i buf j j0 h' hlen
      · subst h'
        have hlen' : i * c + j0 < (fillRow f c i buf j0).length := by
          rw [length_fillRow]; exact hlen
        simp only [fillRow, List.getElem?_set_self hlen']

theorem fillRow_get_untouched (f : Nat → Nat → ℚ) (c i : Nat) (buf : List ℚ) :
    ∀ j p, (∀ j0, j0 < j → p ≠ i * c + j0) →
      (fillRow f c i buf j)[p]? = buf[p]?
  | 0, _, _ => rfl
  | j + 1, p, h => by
      have hne : i * c + j ≠ p := fun hE => h j (Nat.lt_succ_self j) hE.symm
      simp only [fillRow, List.getElem?_set_ne hne]
      exact fillRow_get_untouched f c i buf j p (fun j0 h0 => h j0 (Nat.lt_succ_of_lt h0))

theorem flat_index_lt (i j r c : Nat) (hi : i < r) (hj : j < c) :
    i * c + j < r * c :=
  calc i * c + j < i * c + c := Nat.add_lt_add_left hj _
    _ = (i + 1) * c := (Nat.succ_mul i c).symm
    _ ≤ r * c := Nat.mul_le_mul_right c hi

theorem fillRows_get (f : Nat → Nat → ℚ) (c : Nat) (buf : List ℚ) :
    ∀ r i j, i < r → j < c → i * c + j < buf.length →
      (fillRows f c buf r)[(i * c + j)]? = some (f i j)
  | 0, _, _, hi, _, _ => absurd hi (Nat.not_lt_zero _)
  | r + 1, i, j, hi, hj, hlen => by
      rcases Nat.lt_succ_iff_lt_or_eq.mp hi with h' | h'
      · have huntouched : ∀ j0, j0 < c → i * c + j ≠ r * c + j0 := by
          intro j0 _ hE
          have hlt : i * c + j < r * c := flat_index_lt i j r c h' hj
          omega
        rw [fillRows, fillRow_get_untouched f c r _ c _ huntouched]
        exact fillRows_get f c buf r i j h' hj hlen
      · subst h'
        rw [fillRows]
        exact fillRow_get_written f c i _ c j hj
          (by rw [length_fillRows]; exact hlen)

theorem fillRows_zero_cols (f : Nat → Nat → ℚ) (buf : List ℚ) :
    ∀ r, fillRows f 0 buf r = buf
  | 0 => rfl
  | r + 1 => by
      rw [fillRows, fillRow, fillRows_zero_cols f buf r]

theorem fillWrites_zero_cols (r : Nat) : fillWrites r 0 = [] := by
  simp [fillWrites]

/-! ## Lemmas about `mapFirstN` -/

theorem mapFirstN_get_lt (f : ℚ → ℚ) :
    ∀ (n : Nat) (buf : List ℚ) (i : Nat), i < n →
      (mapFirstN f n buf)[i]? = Option.map f buf[i]?
  | 0, _, _, h => absurd h (Nat.not_lt_zero _)
  | n + 1, [], i, _ => by simp [mapFirstN]
  | n + 1, _ :: _, 0, _ => by simp [mapFirstN]
  | n + 1, _ :: rest, i + 1, h => by
      simp only [mapFirstN, List.getElem?_cons_succ]
      exact mapFirstN_get_lt f n rest i (Nat.lt_of_succ_lt_succ h)

theorem mapFirstN_get_ge (f : ℚ → ℚ) :
    ∀ (n : Nat) (buf : List ℚ) (i : Nat), n ≤ i →
      (mapFirstN f n buf)[i]? = buf[i]?
  | 0, buf, i, _ => by cases buf <;> rfl
  | n + 1, [], i, _ => rfl
  | n + 1, _ :: _, 0, h => absurd h (Nat.not_succ_le_zero _)
  | n + 1, _ :: rest, i + 1, h => by
      simp only [mapFirstN, List.getElem?_cons_succ]
      exact mapFirstN_get_ge f n rest i (Nat.le_of_succ_le_succ h)

/-! ## Lemmas about the token protocol -/

/-- Reachable token states: either the token is still valid and its release has
never fired, or it is spent and its release fired exactly once. -/
def TokenInv (t : TokenState) : Prop :=
  (0 < t.refcount ∧ t.releaseCount = 0) ∨ (t.refcount = 0 ∧ t.releaseCount = 1)

theorem stepToken_inv (t : TokenState) (op : TokenOp) (h : TokenInv t) :
    TokenInv (stepToken t op).1 := by
  rcases h with ⟨hpos, hrel⟩ | ⟨hzero, hrel⟩
  · cases op
    · left
      simp only [stepToken, acquire, if_neg (Nat.pos_iff_ne_zero.mp hpos)]
      exact ⟨Nat.succ_pos _, hrel⟩
    · by_cases h1 : t.refcount = 1
      · right
        simp only [stepToken, drop, if_neg (Nat.pos_iff_ne_zero.mp hpos), if_pos h1]
        exact ⟨trivial, by omega⟩
      · left
        simp only [stepToken, drop, if_neg (Nat.pos_iff_ne_zero.mp hpos), if_neg h1]
        exact ⟨by omega, hrel⟩
  · cases op
    · right
      simp only [stepToken, acquire, if_pos hzero]
      exact ⟨hzero, hrel⟩
    · right
      simp only [stepToken, drop, if_pos hzero]
      exact ⟨hzero, hrel⟩

theorem runOps_inv (ops : List TokenOp) :
    ∀ t : TokenState, TokenInv t → TokenInv (runOps t ops).1 := by
  induction ops with
  | nil => intro t h; exact h
  | cons op rest ih =>
      intro t h
      exact ih (stepToken t op).1 (stepToken_inv t op h)

/-! ## Lemmas about the specializer dispatch -/

theorem fill_array_specialized_dtype (d : Descriptor) :
    (fill_array_specialized d).1.dtype = d.dtype := by
  unfold fill_array_specialized
  split
  · rfl
  · split <;> rfl

theorem fill_array_specialized_ndim (d : Descriptor) :
    (fill_array_specialized d).1.ndim = d.ndim := by
  unfold fill_array_specialized
  split
  · rfl
  · split <;> rfl

theorem specialized_string_congr (d1 d2 : Descriptor)
    (hdt : d1.dtype = d2.dtype) (hnd : d1.ndim = d2.ndim) :
    (fill_array_specialized d1).2 = (fill_array_specialized d2).2 := by
  unfold fill_array_specialized
  rw [hdt, hnd]
  by_cases h1 : d2.dtype = Dtype.float32 ∧ d2.ndim = 2
  · rw [if_pos h1, if_pos h1]
  · rw [if_neg h1, if_neg h1]
    by_cases h2 : d2.dtype = Dtype.int32 ∧ d2.ndim = 2
    · rw [if_pos h2, if_pos h2]
    · rw [if_neg h2, if_neg h2]

theorem rowmajor_34_strides (d : Descriptor) (hsh : d.shape = [3, 4])
    (hrm : is_contiguous d Order.rowMajor = true) : d.strides = [4, 1] := by
  unfold is_contiguous at hrm
  rw [hsh] at hrm
  rcases hst : d.strides with _ | ⟨s0, rest0⟩
  · rw [hst] at hrm; simp [cContigAux] at hrm
  · rcases rest0 with _ | ⟨s1, rest1⟩
    · rw [hst] at hrm; simp [cContigAux] at hrm
    · rcases rest1 with _ | ⟨s2, rest2⟩
      · rw [hst] at hrm
        simp [cContigAux] at hrm
        rw [hrm.1, hrm.2]
      · rw [hst] at hrm; simp [cContigAux] at hrm

/-! ## The claims -/

/-- C1: the runtime specializer `fill_array_specialized` selects by a
deterministic first-match scan over `(dtype, ndim)`: float32/2D yields the
float view message, otherwise int32/2D yields the int32 view message,
otherwise the unsupported message — and no other outcome is possible. -/
theorem specializer_first_match (arr : Descriptor)
    (hdev : arr.device = Device.cpu)
    (hc : is_contiguous arr Order.rowMajor = true) :
    ((arr.dtype = Dtype.float32 ∧ arr.ndim = 2) →
      (fill_array_specialized arr).2 = "Used specialized 2D float view") ∧
    ((arr.dtype = Dtype.int32 ∧ arr.ndim = 2) →
      (fill_array_specialized arr).2 = "Used specialized 2D int32 view") ∧
    (¬(arr.dtype = Dtype.float32 ∧ arr.ndim = 2) →
      ¬(arr.dtype = Dtype.int32 ∧ arr.ndim = 2) →
      (fill_array_specialized arr).2 = "Unsupported array type or dimension") ∧
    ((fill_array_specialized arr).2 = "Used specialized 2D float view" ∨
      (fill_array_specialized arr).2 = "Used specialized 2D int32 view" ∨
      (fill_array_specialized arr).2 = "Unsupported array type or dimension") := by
  refine ⟨fun h => ?_, fun h => ?_, fun h1 h2 => ?_, ?_⟩
  · rw [fill_array_specialized, if_pos h]
  · have hne : ¬(arr.dtype = Dtype.float32 ∧ arr.ndim = 2) := by
      rintro ⟨hf, -⟩; rw [h.1] at hf; exact Dtype.noConfusion hf
    rw [fill_array_specialized, if_neg hne, if_pos h]
  · rw [fill_array_specialized, if_neg h1, if_neg h2]
  · unfold fill_array_specialized
    split
    · exact Or.inl rfl
    · split
      · exact Or.inr (Or.inl rfl)
      · exact Or.inr (Or.inr rfl)

/-- C1 witness: a float64 3D descriptor falls through both matches to the
unsupported outcome. -/
theorem specializer_first_match_witness :
    (fill_array_specialized dFloat64_3d).2 = "Unsupported array type or dimension" :=
  (specializer_first_match dFloat64_3d (by decide) (by decide)).2.2.1
    (by decide) (by decide)

/-- C2 counterexample: on a 2x2 float32 array the specializer fills
`i*j + 0.5`, not `i*j`: the entry at (1,1) is 3/2, and the resulting contents
are not `[[0,0],[0,2]]` — in fact no entry is 2. -/
theorem specializer_fill_pattern_counterexample :
    (fill_array_specialized dFloat22).2 = "Used specialized 2D float view" ∧
    (fill_array_specialized dFloat22).1.data[3]? = some (3/2 : ℚ) ∧
    ¬ (fill_array_specialized dFloat22).1.data = [0, 0, 0, 2] := by
  have hdata : (fill_array_specialized dFloat22).1.data = [1/2, 1/2, 1/2, 3/2] := by
    norm_num [fill_array_specialized, dFloat22, Descriptor.ndim, Descriptor.shapeAt,
      fill2d, fillRows, fillRow]
  refine ⟨rfl, by rw [hdata]; norm_num, by rw [hdata]; norm_num⟩

/-- C2 amended: the float/2D branch fills `i*j + 0.5`, yielding
`[[0.5, 0.5], [0.5, 1.5]]` on a 2x2 float32 array; the int32/2D branch fills
`i + j`, yielding `[[0, 1], [1, 2]]` on a 2x2 int32 array. -/
theorem specializer_fill_pattern_amended :
    (fill_array_specialized dFloat22).1.data = [1/2, 1/2, 1/2, 3/2] ∧
    (fill_array_specialized dFloat22).2 = "Used specialized 2D float view" ∧
    (fill_array_specialized dInt22).1.data = [0, 1, 1, 2] ∧
    (fill_array_specialized dInt22).2 = "Used specialized 2D int32 view" := by
  refine ⟨?_, rfl, ?_, rfl⟩
  · norm_num [fill_array_specialized, dFloat22, Descriptor.ndim, Descriptor.shapeAt,
      fill2d, fillRows, fillRow]
  · decide

/-- C3: the release callback fires exactly once over a token's lifetime —
dropping the last reference fires it synchronously, it never fires while a
reference remains, a drop on the spent token reports a double release (never a
silent no-op, never a second firing), and along every sequence of host
operations on a fresh token the release fires at most once, and never while
the refcount is positive. -/
theorem token_release_exactly_once (ops : List TokenOp) :
    (drop { refcount := 1, releaseCount := 0 } =
      Except.ok { refcount := 0, releaseCount := 1 }) ∧
    (∀ t : TokenState, t.refcount = 0 →
      drop t = Except.error LifetimeError.DoubleRelease) ∧
    (∀ t : TokenState, 2 ≤ t.refcount →
      drop t = Except.ok { refcount := t.refcount - 1, releaseCount := t.releaseCount }) ∧
    (runOps make_owner [TokenOp.drp, TokenOp.drp]).2 = [LifetimeError.DoubleRelease] ∧
    (runOps make_owner ops).1.releaseCount ≤ 1 ∧
    (0 < (runOps make_owner ops).1.refcount →
      (runOps make_owner ops).1.releaseCount = 0) := by
  have hinv : TokenInv (runOps make_owner ops).1 :=
    runOps_inv ops make_owner (Or.inl ⟨Nat.one_pos, rfl⟩)
  refine ⟨rfl, fun t h0 => ?_, fun t h2 => ?_, rfl, ?_, ?_⟩
  · rw [drop, if_pos h0]
  · rw [drop, if_neg (by omega), if_neg (by omega)]
  · rcases hinv with ⟨-, h⟩ | ⟨-, h⟩ <;> omega
  · intro hpos
    rcases hinv with ⟨-, h⟩ | ⟨h0, -⟩
    · exact h
    · omega

/-- C3 witness: on a fresh token, the first drop fires the release and the
second is reported as a double release. -/
theorem token_release_exactly_once_witness :
    (runOps make_owner [TokenOp.drp, TokenOp.drp]).1.releaseCount ≤ 1 ∧
    drop { refcount := 1, releaseCount := 0 } =
      Except.ok { refcount := 0, releaseCount := 1 } := by
  have h := token_release_exactly_once [TokenOp.drp, TokenOp.drp]
  exact ⟨h.2.2.2.2.1, h.1⟩

/-- C4: the two arrays of `return_multiple_arrays` share one token over one
backing allocation; dropping the first descriptor keeps the backing intact and
readable through the second, and only dropping the second fires the release,
which frees the backing. -/
theorem shared_ownership_release_order :
    dropExport return_multiple_arrays.1 return_multiple_arrays.2 =
      Except.ok (some make_shared_arrays, { refcount := 1, releaseCount := 0 }) ∧
    (∀ i, readSecond (some make_shared_arrays) i = make_shared_arrays.vec_2[i]?) ∧
    readSecond (some make_shared_arrays) 3 = some 6 ∧
    dropExport (some make_shared_arrays) { refcount := 1, releaseCount := 0 } =
      Except.ok (none, { refcount := 0, releaseCount := 1 }) := by
  exact ⟨rfl, fun i => rfl, by decide, rfl⟩

/-- C4 witness: after the first drop, element 5 of the second array is still
readable through the intact backing. -/
theorem shared_ownership_release_order_witness :
    readSecond (some make_shared_arrays) 5 = make_shared_arrays.vec_2[5]? :=
  shared_ownership_release_order.2.1 5

/-- C5: a row-major float32 cpu descriptor of shape (3,4) is rejected by the
column-major-only adapter with a layout mismatch — never accepted, transposed
or copied. -/
theorem colmajor_only_rejects_rowmajor (d : Descriptor)
    (hdt : d.dtype = Dtype.float32) (hdev : d.device = Device.cpu)
    (hsh : d.shape = [3, 4]) (hrm : is_contiguous d Order.rowMajor = true) :
    matrix_colmajor_only d = Except.error LayoutError.LayoutMismatch := by
  have hst := rowmajor_34_strides d hsh hrm
  rcases d with ⟨da, dt, dev, sh, st, ow⟩
  dsimp only at hdt hdev hsh hst
  subst hdt hdev hsh hst
  rfl

/-- C5 witness: the concrete row-major 3x4 array is rejected with a layout
mismatch. -/
theorem colmajor_only_rejects_rowmajor_witness :
    matrix_colmajor_only dRow34 = Except.error LayoutError.LayoutMismatch :=
  colmajor_only_rejects_rowmajor dRow34 (by decide) (by decide) rfl (by decide)

/-- C6: a descriptor with a zero extent on some axis has zero elements, and the
2D fill operations access no index pair and perform no write at all: the array
is returned unchanged, a no-op rather than an error. -/
theorem zero_extent_fill_noop (arr : Descriptor) (h : 0 ∈ arr.shape) :
    arr.numel = 0 ∧
    (arr.ndim = 2 →
      fillWrites (arr.shapeAt 0) (arr.shapeAt 1) = [] ∧
      fill_array_optimized arr = arr ∧ fill_array_regular arr = arr) := by
  refine ⟨List.prod_eq_zero h, fun hnd => ?_⟩
  rcases List.length_eq_two.mp hnd with ⟨a, b, hsh⟩
  rw [hsh] at h
  have hab : a = 0 ∨ b = 0 := by
    rcases List.mem_cons.mp h with h0 | h0
    · exact Or.inl h0.symm
    · rcases List.mem_cons.mp h0 with h1 | h1
      · exact Or.inr h1.symm
      · exact absurd h1 (List.not_mem_nil 0)
  have hs0 : arr.shapeAt 0 = a := by simp [Descriptor.shapeAt, hsh]
  have hs1 : arr.shapeAt 1 = b := by simp [Descriptor.shapeAt, hsh]
  have hfill : fill2d arr.data (arr.shapeAt 0) (arr.shapeAt 1) prodPattern = arr.data := by
    rw [hs0, hs1]
    rcases hab with h0 | h0
    · rw [h0]; rfl
    · rw [h0]; exact fillRows_zero_cols _ arr.data a
  refine ⟨?_, ?_, ?_⟩
  · rw [hs0, hs1]
    rcases hab with h0 | h0
    · rw [h0]; rfl
    · rw [h0]; exact fillWrites_zero_cols a
  · have heq : fill_array_optimized arr =
        { arr with data := fill2d arr.data (arr.shapeAt 0) (arr.shapeAt 1) prodPattern } := rfl
    rw [heq, hfill]
  · have heq : fill_array_regular arr =
        { arr with data := fill2d arr.data (arr.shapeAt 0) (arr.shapeAt 1) prodPattern } := rfl
    rw [heq, hfill]

/-- C6 witness: the shape (0,5) array has zero elements and the fill is a
no-op on it. -/
theorem zero_extent_fill_noop_witness :
    dZero05.numel = 0 ∧ fill_array_optimized dZero05 = dZero05 := by
  have h := zero_extent_fill_noop dZero05 (by decide)
  exact ⟨h.1, (h.2 (by decide)).2.1⟩

/-- C7: `create_2d_array rows cols` allocates exactly `rows*cols` elements,
exports a `(rows, cols)` descriptor whose element at `(i, j)` is `i*cols + j`,
and attaches a fresh token (refcount 1, release unfired) whose release frees
exactly that allocation when the sole reference is dropped. -/
theorem create_2d_array_spec (rows cols : Nat) :
    ((create_2d_array rows cols).2.1.data.length = rows * cols) ∧
    ((create_2d_array rows cols).2.1.shape = [rows, cols]) ∧
    (∀ i j, i < rows → j < cols →
      (create_2d_array rows cols).2.1.data[(i * cols + j)]? =
        some ((i * cols + j : Nat) : ℚ)) ∧
    ((create_2d_array rows cols).1 = some (create_2d_array rows cols).2.1.data) ∧
    ((create_2d_array rows cols).2.2 = make_owner) ∧
    (dropExport (create_2d_array rows cols).1 (create_2d_array rows cols).2.2 =
      Except.ok (none, { refcount := 0, releaseCount := 1 })) := by
  refine ⟨?_, rfl, fun i j hi hj => ?_, rfl, rfl, rfl⟩
  · show ((List.range (rows * cols)).map (fun (i : Nat) => (i : ℚ))).length = rows * cols
    rw [List.length_map, List.length_range]
  · show ((List.range (rows * cols)).map (fun (i : Nat) => (i : ℚ)))[(i * cols + j)]? =
      some ((i * cols + j : Nat) : ℚ)
    rw [List.getElem?_map, List.getElem?_range (flat_index_lt i j rows cols hi hj)]
    rfl

/-- C7 witness: in the 2x3 array, the element at (1, 2) is 5. -/
theorem create_2d_array_spec_witness :
    (create_2d_array 2 3).2.1.data[(1 * 3 + 2)]? = some ((1 * 3 + 2 : Nat) : ℚ) :=
  (create_2d_array_spec 2 3).2.2.1 1 2 (by decide) (by decide)

/-- C8: the specializer's dispatch is deterministic and depends only on the
metadata `(dtype, ndim)`: two descriptors agreeing on dtype and ndim are
dispatched to the same variant, and re-running the specializer on its own
output (dtype and ndim unchanged) selects the same variant again. -/
theorem specializer_metadata_only (d1 d2 : Descriptor)
    (hdt : d1.dtype = d2.dtype) (hnd : d1.ndim = d2.ndim) :
    (fill_array_specialized d1).2 = (fill_array_specialized d2).2 ∧
    (fill_array_specialized (fill_array_specialized d1).1).2 =
      (fill_array_specialized d1).2 :=
  ⟨specialized_string_congr d1 d2 hdt hnd,
    specialized_string_congr (fill_array_specialized d1).1 d1
      (fill_array_specialized_dtype d1) (fill_array_specialized_ndim d1)⟩

/-- C8 witness: a 2x2 zeroed float array and a 2x3 float array with different
contents are dispatched to the same variant. -/
theorem specializer_metadata_only_witness :
    (fill_array_specialized dFloat22).2 = (fill_array_specialized dFloat23).2 :=
  (specializer_metadata_only dFloat22 dFloat23 (by decide) (by decide)).1

/-- C9: on a 2D C-contiguous cpu float32 array, the view-based fill and the
direct fill produce identical results, and both set the element at `(i, j)` to
`i * j`. -/
theorem fill_optimized_eq_regular (arr : Descriptor)
    (hdt : arr.dtype = Dtype.float32) (hdev : arr.device = Device.cpu)
    (hnd : arr.ndim = 2)
    (hlen : arr.data.length = arr.shapeAt 0 * arr.shapeAt 1) :
    fill_array_optimized arr = fill_array_regular arr ∧
    (∀ i j, i < arr.shapeAt 0 → j < arr.shapeAt 1 →
      (fill_array_optimized arr).data[(i * arr.shapeAt 1 + j)]? =
        some ((i * j : Nat) : ℚ)) ∧
    (∀ i j, i < arr.shapeAt 0 → j < arr.shapeAt 1 →
      (fill_array_regular arr).data[(i * arr.shapeAt 1 + j)]? =
        some ((i * j : Nat) : ℚ)) := by
  have helem : ∀ i j, i < arr.shapeAt 0 → j < arr.shapeAt 1 →
      (fill_array_regular arr).data[(i * arr.shapeAt 1 + j)]? =
        some ((i * j : Nat) : ℚ) := by
    intro i j hi hj
    show (fill2d arr.data (arr.shapeAt 0) (arr.shapeAt 1)
      prodPattern)[(i * arr.shapeAt 1 + j)]? = _
    exact fillRows_get _ _ arr.data (arr.shapeAt 0) i j hi hj
      (by rw [hlen]; exact flat_index_lt i j _ _ hi hj)
  exact ⟨rfl, helem, helem⟩

/-- C9 witness: on the 2x2 float array both fills agree and the element at
(1, 1) is 1. -/
theorem fill_optimized_eq_regular_witness :
    fill_array_optimized dFloat22 = fill_array_regular dFloat22 ∧
    (fill_array_optimized dFloat22).data[(1 * dFloat22.shapeAt 1 + 1)]? =
      some ((1 * 1 : Nat) : ℚ) := by
  have h := fill_optimized_eq_regular dFloat22 (by decide) (by decide)
    (by decide) (by decide)
  exact ⟨h.1, h.2.1 1 1 (by decide) (by decide)⟩

/-- C10 counterexample: on a strided (non-contiguous) 1D view — shape (2),
stride 2, buffer `[1, 2, 3]`, elements `1` and `3` — `map_vector` raises no
error, yet element 1 (the value 3) is left at 3 instead of 6, and the buffer
slot between the elements (the value 2, not an element of the array) is
changed to 4: the in-place doubling claim fails. -/
theorem map_vector_strided_counterexample :
    dStrided.ndim = 1 ∧
    (map_vector dStrided).2 = none ∧
    elem1d dStrided 1 = some 3 ∧
    elem1d (map_vector dStrided).1 1 = some 3 ∧
    ¬ elem1d (map_vector dStrided).1 1 = some 6 ∧
    dStrided.data[1]? = some 2 ∧
    (map_vector dStrided).1.data[1]? = some 4 := by
  norm_num [map_vector, mapFirstN, elem1d, dStrided, Descriptor.ndim,
    Descriptor.shapeAt, Descriptor.strideAt]
  decide

/-- C10 amended: `map_vector` reports the 1D-rank error exactly when the
array's ndim is not 1, leaving the array untouched in that case; when ndim is
1 and the array is contiguous (unit stride), every element is doubled in place
and every buffer position beyond the array is unchanged. -/
theorem map_vector_amended (d : Descriptor) :
    ((map_vector d).2 = some "Expected a 1D array" ↔ d.ndim ≠ 1) ∧
    (d.ndim ≠ 1 → (map_vector d).1 = d) ∧
    (d.ndim = 1 → d.strideAt 0 = 1 →
      (map_vector d).2 = none ∧
      (∀ i, i < d.shapeAt 0 →
        (map_vector d).1.data[i]? = Option.map (fun x => x * 2) d.data[i]?) ∧
      (∀ i, d.shapeAt 0 ≤ i → (map_vector d).1.data[i]? = d.data[i]?) ∧
      (∀ i, i < d.shapeAt 0 →
        elem1d (map_vector d).1 i = Option.map (fun x => x * 2) (elem1d d i))) := by
  by_cases h : d.ndim = 1
  · have hno : ¬ d.ndim ≠ 1 := fun hn => hn h
    refine ⟨?_, fun hn => absurd h hn, fun _ hs => ?_⟩
    · rw [map_vector, if_neg hno]
      simp [h]
    · have hdata : (map_vector d).1.data =
          mapFirstN (fun x => x * 2) (d.shapeAt 0) d.data := by
        rw [map_vector, if_neg hno]
      have hstr : (map_vector d).1.strideAt 0 = d.strideAt 0 := by
        rw [map_vector, if_neg hno]
        rfl
      refine ⟨by rw [map_vector, if_neg hno], fun i hi => ?_, fun i hi => ?_, fun i hi => ?_⟩
      · rw [hdata]; exact mapFirstN_get_lt _ _ _ _ hi
      · rw [hdata]; exact mapFirstN_get_ge _ _ _ _ hi
      · rw [elem1d, elem1d, hstr, hdata, hs]
        simp only [Int.toNat_one, Nat.mul_one]
        exact mapFirstN_get_lt _ _ _ _ hi
  · refine ⟨?_, fun _ => ?_, fun h1 => absurd h1 h⟩
    · rw [map_vector, if_pos h]
      simp [h]
    · rw [map_vector, if_pos h]

/-- C10 amended witness: on the contiguous array `[1, 5]` no error is raised
and both elements are doubled. -/
theorem map_vector_amended_witness :
    (map_vector dUnit).2 = none ∧
    (map_vector dUnit).1.data[0]? = some 2 ∧
    (map_vector dUnit).1.data[1]? = some 10 := by
  have h := (map_vector_amended dUnit).2.2 (by decide) (by decide)
  refine ⟨h.1, ?_, ?_⟩
  · rw [h.2.1 0 (by decide)]; norm_num [dUnit]
  · rw [h.2.1 1 (by decide)]; norm_num [dUnit]

end ZeroCopy
